import Mathlib

/-!
Verification of `job_hunt_agent_new.py` (class `JobHuntingAgent`) against its
natural-language specification.

The embedding models the two public operations `find_jobs` and
`get_industry_trends`.  The two external services (the Firecrawl extraction
service and the OpenAI language-model agent) are opaque collaborators; each
call to them is modelled by an `Except PyErr _` value supplied as a parameter:
`.error e` means the call raised a Python exception whose `str(e)` is `e.msg`,
`.ok v` means it returned `v`.  The embedding additionally reports how many
times each external service was invoked, so that no-retry / not-invoked
properties are expressible.
-/

namespace JobAgent

/-- A Python exception, identified by its textual message (`str(e)`). -/
structure PyErr where
  msg : String
  deriving DecidableEq, Repr

/-- A Python object as far as the `skills` list is concerned: either a
`str`, or any non-string object (whose content is irrelevant — only the
`", ".join` type check looks at it). -/
inductive PyObj where
  | str (s : String)
  | nonStr
  deriving DecidableEq, Repr

/-- `o` is a Python `str`. -/
def PyObj.isStr : PyObj → Bool
  | .str _ => true
  | .nonStr => false

/-- Python `", ".join(skills)`: raises `TypeError` as soon as an element is
not a `str`; on an all-string list returns the comma-joined text (empty list
gives the empty string). -/
def joinSkills (skills : List PyObj) : Except PyErr String :=
  if skills.all PyObj.isStr then
    .ok (String.intercalate ", " (skills.filterMap fun o =>
      match o with | .str s => some s | .nonStr => none))
  else
    .error ⟨"sequence item: expected str instance"⟩

/-- Python `Char` lowercasing, as used by `str.lower()` (the inputs in this
program are ASCII; `Char.toLower` matches Python there). -/
def pyLowerChar (c : Char) : Char := c.toLower

/-- `s.lower().replace(" ", "-")`, the only normalization `find_jobs`
applies to the job title and the location before substitution
(job_hunt_agent_new.py lines 43-44).  A single-character `str.replace` is a
character map. -/
def fmtTerm (s : String) : String :=
  String.mk ((s.data.map pyLowerChar).map fun c => if c = ' ' then '-' else c)

/-- The URL list `find_jobs` builds (job_hunt_agent_new.py lines 47-56):
a fixed list of eight board templates with the formatted title and location
substituted in.  No branching on the location occurs anywhere. -/
def findJobsUrls (job_title location : String) : List String :=
  let t := fmtTerm job_title
  let l := fmtTerm location
  [ "https://www.linkedin.com/jobs/search/?keywords=" ++ t ++ "&location=" ++ l ++ "&geoId=101452733",
    "https://www.indeed.com/jobs?q=" ++ t ++ "&l=" ++ l,
    "https://www.eurojobs.com/job-search/" ++ t ++ "/" ++ l ++ "/",
    "https://www.stepstone.de/en/job-search/" ++ t ++ "/" ++ l ++ "/",
    "https://www.monster.lu/en/jobs/search/?q=" ++ t ++ "&where=" ++ l,
    "https://www.jobserve.com/gb/en/Job-Search/",
    "https://jobs.euractiv.com/search?keywords=" ++ t ++ "&location=" ++ l,
    "https://ec.europa.eu/eures/portal/jv-se/home" ]

/-- The URL list `get_industry_trends` builds (job_hunt_agent_new.py
lines 120-123): `job_category.replace(' ', '_')` for PayScale, and
`job_category.lower().replace(' ', '-')` plus `len(job_category)` for
Glassdoor. -/
def trendsUrls (job_category : String) : List String :=
  [ "https://www.payscale.com/research/US/Job=" ++
      String.mk (job_category.data.map fun c => if c = ' ' then '_' else c) ++ "/Salary",
    "https://www.glassdoor.com/Salaries/" ++ fmtTerm job_category ++
      "-salary-SRCH_KO0," ++ toString job_category.length ++ ".htm" ]

/-- A job posting as described by `NestedModel1`: five optional string
fields, all defaulting to `None`. -/
structure JobPosting where
  region : Option String := none
  role : Option String := none
  job_title : Option String := none
  experience : Option String := none
  job_link : Option String := none
  deriving DecidableEq, Repr

/-- An industry trend record (`IndustryTrend`).  The two Python floats are
modelled as rationals; the program never computes with them. -/
structure IndustryTrend where
  industry : Option String := none
  avg_salary : Option Rat := none
  growth_rate : Option Rat := none
  demand_level : Option String := none
  top_skills : Option (List String) := none
  deriving DecidableEq, Repr

/-- The value `firecrawl.extract` returns, in the three shapes the spec
describes.
* `dict success data`: a Python dict.  `success` is the truthiness of its
  `success` entry (absent = falsy).  The outer `Option` of `data` is the
  presence of the `data` key (its absence makes `raw_response['data']` raise
  `KeyError`); the inner `Option` is the presence of the payload-list key
  inside it (`.get(key, [])` defaults to the empty list).
* `typedObj payload`: an already-typed (non-dict) response object.
* `jsonStr payload`: a JSON-encoded string; `payload` is the posting list
  the string encodes.  A Python `str` is never a `dict`, so the code's
  `isinstance` test sees only that it is not a dict. -/
inductive RawResponse (α : Type) where
  | dict (success : Bool) (data : Option (Option (List α)))
  | typedObj (payload : List α)
  | jsonStr (payload : List α)
  deriving DecidableEq, Repr

/-- Lines 78-81 of `find_jobs`:
`jobs = raw_response['data'].get('job_postings', [])` when the response is a
dict with truthy `success`, else `jobs = []`.  The `KeyError` from a missing
`data` key is an exception (raised inside the `try`). -/
def normalizeJobs (r : RawResponse JobPosting) : Except PyErr (List JobPosting) :=
  match r with
  | .dict true (some jp) => .ok (jp.getD [])
  | .dict true none => .error ⟨"KeyError: data"⟩
  | .dict false _ => .ok []
  | .typedObj _ => .ok []
  | .jsonStr _ => .ok []

/-- Modelled from the spec (section 4.3), NOT from the code: the
normalization the spec claims, in which all three response encodings yield
the posting list they carry.  Used only to compare the spec's claim with
`normalizeJobs`. -/
def specNormalizeJobs (r : RawResponse JobPosting) : List JobPosting :=
  match r with
  | .dict true (some jp) => jp.getD []
  | .dict _ _ => []
  | .typedObj ps => ps
  | .jsonStr ps => ps

/-- The message `find_jobs` returns when the normalized posting list is
empty (line 84). -/
def noJobsMsg : String :=
  "No European job listings found matching your criteria. Try different search parameters."

/-- The error message of `find_jobs` (line 117): prefix followed by
`str(e)`. -/
def errJobsMsg (e : PyErr) : String :=
  "An error occurred while searching for jobs: " ++ e.msg

/-- The result of a public operation together with how many times each
external service was called while producing it. -/
structure CallTrace where
  result : String
  extractCalls : Nat
  agentCalls : Nat
  deriving DecidableEq, Repr

/-- The `try ... except` block of `find_jobs` (lines 58-117).  Every
exception arising inside it — from `firecrawl.extract`, from the `KeyError`
of a missing `data` key, or from `agent.run` — is caught by line 116 and
turned into the error message, so the block always produces a result; its
total return type records that.  `extract` is the behaviour of the single
`firecrawl.extract` call, `agentRun` the behaviour of the single
`agent.run` call; the prompt strings are opaque payloads of those calls
and are not modelled. -/
def findJobsTry (extract : Except PyErr (RawResponse JobPosting))
    (agentRun : Except PyErr String) : CallTrace :=
  match extract with
  | .error e => ⟨errJobsMsg e, 1, 0⟩
  | .ok raw =>
    match normalizeJobs raw with
    | .error e => ⟨errJobsMsg e, 1, 0⟩
    | .ok jobs =>
      if jobs.isEmpty then
        ⟨noJobsMsg, 1, 0⟩
      else
        match agentRun with
        | .error e => ⟨errJobsMsg e, 1, 1⟩
        | .ok content => ⟨content, 1, 1⟩

/-- `JobHuntingAgent.find_jobs` (job_hunt_agent_new.py lines 42-117).

Lines 43-45 (title/location formatting and `", ".join(skills)`) run BEFORE
the `try` block: an exception there propagates to the caller (`.error`).
Only the joining of `skills` can raise among them — it does when an element
is not a string.  Everything from the `firecrawl.extract` call onward is
the `try` block, which always returns normally. -/
def find_jobs (extract : Except PyErr (RawResponse JobPosting))
    (agentRun : Except PyErr String)
    (job_title location : String) (_experience_years : Int)
    (skills : List PyObj) : Except PyErr CallTrace :=
  let _fjt := fmtTerm job_title
  let _fl := fmtTerm location
  match joinSkills skills with
  | .error e => .error e
  | .ok _ss =>
    let _urls := findJobsUrls job_title location
    .ok (findJobsTry extract agentRun)

/-- Message of `get_industry_trends` when the success-dict carries an empty
trends list (line 140). -/
def noTrendsEmptyMsg (job_category : String) : String :=
  "No industry trends available for " ++ job_category ++ "."

/-- Message of `get_industry_trends` when the response is not a dict with a
truthy `success` flag (line 164). -/
def noTrendsDataMsg (job_category : String) : String :=
  "No industry trends data available for " ++ job_category ++ "."

/-- The error message of `get_industry_trends` (line 166). -/
def errTrendsMsg (e : PyErr) : String :=
  "An error occurred while fetching industry trends: " ++ e.msg

/-- `JobHuntingAgent.get_industry_trends` (job_hunt_agent_new.py lines
119-166).  URL construction cannot raise (pure string operations on a
`str`), and the whole remote interaction sits inside `try ... except`, so
the operation always returns normally; its total return type records
that.  The non-success-dict shapes fall through to line 164's
"No industry trends data available" message; a success-dict without a
`data` key raises `KeyError` inside the `try`, which line 165 converts to
the error message. -/
def get_industry_trends (extract : Except PyErr (RawResponse IndustryTrend))
    (agentRun : Except PyErr String)
    (job_category : String) : CallTrace :=
  let _urls := trendsUrls job_category
  match extract with
  | .error e => ⟨errTrendsMsg e, 1, 0⟩
  | .ok raw =>
    match raw with
    | .dict true (some jp) =>
      let industries := jp.getD []
      if industries.isEmpty then
        ⟨noTrendsEmptyMsg job_category, 1, 0⟩
      else
        match agentRun with
        | .error e => ⟨errTrendsMsg e, 1, 1⟩
        | .ok content => ⟨content, 1, 1⟩
    | .dict true none => ⟨errTrendsMsg ⟨"KeyError: data"⟩, 1, 0⟩
    | _ => ⟨noTrendsDataMsg job_category, 1, 0⟩

/-- The leading fixed part of each of the eight board URL templates of
`find_jobs`, before any substituted text. -/
def boardStems : List String :=
  [ "https://www.linkedin.com/jobs/search/?keywords=",
    "https://www.indeed.com/jobs?q=",
    "https://www.eurojobs.com/job-search/",
    "https://www.stepstone.de/en/job-search/",
    "https://www.monster.lu/en/jobs/search/?q=",
    "https://www.jobserve.com/gb/en/Job-Search/",
    "https://jobs.euractiv.com/search?keywords=",
    "https://ec.europa.eu/eures/portal/jv-se/home" ]

/-- A sample well-formed posting, used as concrete test data. -/
def samplePosting : JobPosting :=
  { job_title := some "Software Engineer", region := some "Germany",
    job_link := some "https://example.com/j1" }

/-- A sample well-formed trend record, used as concrete test data. -/
def sampleTrend : IndustryTrend :=
  { industry := some "Data Science", demand_level := some "High" }

/-- Whether the response is a Python dict whose `success` entry is truthy —
the only shape the code treats as a successful extraction. -/
def RawResponse.isTruthyDict {α : Type} : RawResponse α → Bool
  | .dict true _ => true
  | _ => false

/-- If two strings differ within their first `n` characters, no pair of
suffixes can make them equal. -/
theorem str_append_ne (p q x y : String) (n : Nat)
    (hp : n ≤ p.data.length) (hq : n ≤ q.data.length)
    (h : p.data.take n ≠ q.data.take n) : p ++ x ≠ q ++ y := by
  intro he
  apply h
  have hd : p.data ++ x.data = q.data ++ y.data := by
    have h2 := congrArg String.data he
    simpa [String.data_append] using h2
  calc p.data.take n = (p.data ++ x.data).take n :=
        (List.take_append_of_le_length hp).symm
    _ = (q.data ++ y.data).take n := by rw [hd]
    _ = q.data.take n := List.take_append_of_le_length hq

/-- Specialisation: a plain string versus a string with a suffix. -/
theorem str_ne_append (p q y : String) (n : Nat)
    (hp : n ≤ p.data.length) (hq : n ≤ q.data.length)
    (h : p.data.take n ≠ q.data.take n) : p ≠ q ++ y := by
  intro he
  exact str_append_ne p q "" y n hp hq h (by rw [String.append_empty]; exact he)

/-- C1, counterexample.  The claim says a location that matches no keyword
yields the generic TWO-board fallback; in the code the URL list for the
unmatched location "nowhereland" has eight entries, not two (there is no
keyword matching at all). -/
theorem C1_counterexample :
    (findJobsUrls "engineer" "nowhereland").length = 8 ∧
    (findJobsUrls "engineer" "nowhereland").length ≠ 2 :=
  ⟨rfl, by decide⟩

/-- C1, amended.  There is no keyword-based routing: for EVERY job title
and location string, `find_jobs` builds the same fixed eight-board URL
list, which in particular is never empty. -/
theorem C1_amended_no_routing (jt l : String) :
    (findJobsUrls jt l).length = 8 ∧ findJobsUrls jt l ≠ [] := by
  refine ⟨rfl, ?_⟩
  simp [findJobsUrls]

/-- C2, counterexample.  A JSON-string response carrying one posting is
normalized by the code to the EMPTY list (only the success-dict shape is
handled), contradicting the claim that all three encodings are normalized
into the same canonical posting list; `specNormalizeJobs` shows what the
spec expected there. -/
theorem C2_counterexample :
    normalizeJobs (.jsonStr [samplePosting]) = .ok [] ∧
    specNormalizeJobs (.jsonStr [samplePosting]) = [samplePosting] ∧
    ([] : List JobPosting).length ≠ [samplePosting].length :=
  ⟨rfl, rfl, by decide⟩

/-- C2, amended.  The adapter normalizes only the success-dict encoding
into the posting list; an already-typed object or a JSON-encoded string
normalizes to the empty list, so `find_jobs` on a JSON-string response
with any number of postings reports the no-data message. -/
theorem C2_amended (ps : List JobPosting) (jp : Option (List JobPosting))
    (ag : Except PyErr String) (jt l : String) :
    normalizeJobs (.typedObj ps) = .ok [] ∧
    normalizeJobs (.jsonStr ps) = .ok [] ∧
    normalizeJobs (.dict true (some jp)) = .ok (jp.getD []) ∧
    find_jobs (.ok (.jsonStr ps)) ag jt l 0 [] = .ok ⟨noJobsMsg, 1, 0⟩ :=
  ⟨rfl, rfl, rfl, rfl⟩

/-- C7.  For every input, both operations construct at most 10 URLs for
their single extraction call: `find_jobs` always builds exactly 8 and
`get_industry_trends` exactly 2. -/
theorem C7_url_cap (jt l cat : String) :
    (findJobsUrls jt l).length ≤ 10 ∧ (trendsUrls cat).length ≤ 10 := by
  have h1 : (findJobsUrls jt l).length = 8 := rfl
  have h2 : (trendsUrls cat).length = 2 := rfl
  omega

/-- C8.  If the extraction response is the success-dict encoding carrying
the posting list `ps`, the normalized list is exactly `ps`: same length,
same order, nothing dropped, duplicated or reordered. -/
theorem C8_roundtrip (ps : List JobPosting) :
    normalizeJobs (.dict true (some (some ps))) = .ok ps :=
  rfl

/-- C9.  `find_jobs` always sends the same eight boards: the URL list has
length 8 for every input, entry `i` always starts with the fixed stem of
board `i`, and the inputs influence the list only through the formatted
(lower-cased, hyphen-joined) title and location substrings. -/
theorem C9_fixed_board_list (jt l jt2 l2 : String)
    (ht : fmtTerm jt = fmtTerm jt2) (hl : fmtTerm l = fmtTerm l2) :
    (findJobsUrls jt l).length = 8 ∧
    (∀ i : Fin 8, (boardStems.getD i "").data <+:
      ((findJobsUrls jt l).getD i "").data) ∧
    findJobsUrls jt l = findJobsUrls jt2 l2 := by
  refine ⟨rfl, ?_, ?_⟩
  · intro i
    fin_cases i <;>
      simp [findJobsUrls, boardStems, String.data_append, List.append_assoc,
        List.getD, List.prefix_append]
  · simp [findJobsUrls, ht, hl]

/-- C9, witness: "Data Scientist"/"data scientist" format identically, so
the theorem applies at those inputs. -/
theorem C9_fixed_board_list_witness :
    (findJobsUrls "Data Scientist" "New Zealand").length = 8 ∧
    (∀ i : Fin 8, (boardStems.getD i "").data <+:
      ((findJobsUrls "Data Scientist" "New Zealand").getD i "").data) ∧
    findJobsUrls "Data Scientist" "New Zealand" =
      findJobsUrls "data scientist" "NEW zealand" :=
  C9_fixed_board_list "Data Scientist" "New Zealand" "data scientist"
    "NEW zealand" (by decide) (by decide)

/-- C3, counterexample.  A non-string element in `skills` makes
`", ".join(skills)` raise `TypeError` on line 45, BEFORE the `try` block:
the exception escapes `find_jobs`, contradicting the claim that no failure
ever reaches the caller. -/
theorem C3_counterexample :
    find_jobs (.ok (.typedObj [])) (.ok "analysis") "Software Engineer"
      "Germany" 3 [PyObj.str "Python", PyObj.nonStr] =
      .error ⟨"sequence item: expected str instance"⟩ :=
  rfl

/-- C3, amended.  Provided every element of `skills` is a string, the
pre-`try` formatting cannot fail, and `find_jobs` returns normally for
every behaviour of the two external services (the `try` block absorbs all
their failures); a non-string skills element, however, raises before the
`try` and escapes. -/
theorem C3_amended_no_raise (extract : Except PyErr (RawResponse JobPosting))
    (ag : Except PyErr String) (jt l : String) (ey : Int)
    (skills : List PyObj) (hsk : skills.all PyObj.isStr = true) :
    find_jobs extract ag jt l ey skills = .ok (findJobsTry extract ag) := by
  unfold find_jobs joinSkills
  rw [if_pos hsk]

/-- C3, witness: all-string skills, extraction raising — the operation
still returns normally. -/
theorem C3_amended_no_raise_witness :
    ([PyObj.str "Python", PyObj.str "SQL"].all PyObj.isStr = true) ∧
    find_jobs (.error ⟨"network down"⟩) (.ok "analysis") "DevOps Engineer"
      "France" 5 [PyObj.str "Python", PyObj.str "SQL"] =
      .ok (findJobsTry (.error ⟨"network down"⟩) (.ok "analysis")) :=
  ⟨by decide, C3_amended_no_raise _ _ _ _ _ _ (by decide)⟩

/-- C4, counterexample.  The URL builder does no percent-encoding: with
job title `<script>` the Indeed URL carries the URL-unsafe characters `<`
and `>` verbatim and contains no `%` escape at all. -/
theorem C4_counterexample :
    '<' ∈ ((findJobsUrls "<script>" "Germany").getD 1 "").data ∧
    '>' ∈ ((findJobsUrls "<script>" "Germany").getD 1 "").data ∧
    '%' ∉ ((findJobsUrls "<script>" "Germany").getD 1 "").data := by
  decide

/-- C4, amended.  The builder only lower-cases and hyphen-joins the title
and location; it never introduces a percent escape: whenever the formatted
title and location contain no `%`, no produced URL contains `%` anywhere
(the unsafe input characters pass through unescaped). -/
theorem C4_amended_no_encoding (jt l : String)
    (hjt : '%' ∉ (fmtTerm jt).data) (hl : '%' ∉ (fmtTerm l).data) :
    ∀ u ∈ findJobsUrls jt l, '%' ∉ u.data := by
  intro u hu
  simp only [findJobsUrls, List.mem_cons, List.not_mem_nil, or_false] at hu
  rcases hu with rfl | rfl | rfl | rfl | rfl | rfl | rfl | rfl <;>
    simp +decide [String.data_append, List.mem_append, not_or, hjt, hl]

/-- C4, witness at a benign title and location. -/
theorem C4_amended_no_encoding_witness :
    ('%' ∉ (fmtTerm "Software Engineer").data) ∧
    ('%' ∉ (fmtTerm "Berlin").data) ∧
    ∀ u ∈ findJobsUrls "Software Engineer" "Berlin", '%' ∉ u.data :=
  ⟨by decide, by decide,
    C4_amended_no_encoding "Software Engineer" "Berlin" (by decide) (by decide)⟩

/-- C5.  A failure of either external call in either public operation is
caught: the operation returns normally with the fixed error prefix
followed by the exception's own text (so the message contains `str(e)` as
a suffix), the extraction service was called exactly once (no retry), and
the agent only if extraction had succeeded with data. -/
theorem C5_remote_failure (e : PyErr) (ag : Except PyErr String)
    (jt l cat : String) (ey : Int) (skills : List PyObj)
    (jobs : List JobPosting) (trends : List IndustryTrend)
    (hsk : skills.all PyObj.isStr = true)
    (hjobs : jobs ≠ []) (htrends : trends ≠ []) :
    find_jobs (.error e) ag jt l ey skills =
      .ok ⟨"An error occurred while searching for jobs: " ++ e.msg, 1, 0⟩ ∧
    find_jobs (.ok (.dict true (some (some jobs)))) (.error e) jt l ey skills =
      .ok ⟨"An error occurred while searching for jobs: " ++ e.msg, 1, 1⟩ ∧
    get_industry_trends (.error e) ag cat =
      ⟨"An error occurred while fetching industry trends: " ++ e.msg, 1, 0⟩ ∧
    get_industry_trends (.ok (.dict true (some (some trends)))) (.error e) cat =
      ⟨"An error occurred while fetching industry trends: " ++ e.msg, 1, 1⟩ ∧
    e.msg.data <:+ (errJobsMsg e).data ∧
    e.msg.data <:+ (errTrendsMsg e).data := by
  have hfj : ∀ ex agr, find_jobs ex agr jt l ey skills = .ok (findJobsTry ex agr) := by
    intro ex agr
    unfold find_jobs joinSkills
    rw [if_pos hsk]
  have hne : jobs.isEmpty = false := by
    cases jobs with
    | nil => exact absurd rfl hjobs
    | cons a t => rfl
  have hnt : trends.isEmpty = false := by
    cases trends with
    | nil => exact absurd rfl htrends
    | cons a t => rfl
  refine ⟨?_, ?_, ?_, ?_, ?_, ?_⟩
  · rw [hfj]; rfl
  · rw [hfj]
    simp [findJobsTry, normalizeJobs, errJobsMsg, hne]
  · rfl
  · simp [get_industry_trends, errTrendsMsg, hnt]
  · unfold errJobsMsg
    rw [String.data_append]
    exact List.suffix_append _ _
  · unfold errTrendsMsg
    rw [String.data_append]
    exact List.suffix_append _ _

/-- C5, witness at a concrete exception and concrete data. -/
theorem C5_remote_failure_witness :
    ([PyObj.str "Python"].all PyObj.isStr = true) ∧
    ([samplePosting] ≠ ([] : List JobPosting)) ∧
    ([sampleTrend] ≠ ([] : List IndustryTrend)) ∧
    find_jobs (.error ⟨"Connection refused"⟩) (.ok "analysis") "Software Engineer"
      "Germany" 3 [PyObj.str "Python"] =
      .ok ⟨"An error occurred while searching for jobs: Connection refused", 1, 0⟩ :=
  ⟨by decide, by decide, by decide,
    (C5_remote_failure ⟨"Connection refused"⟩ (.ok "analysis") "Software Engineer"
      "Germany" "Data Science" 3 [PyObj.str "Python"] [samplePosting] [sampleTrend]
      (by decide) (by decide) (by decide)).1⟩

/-- C6.  When the normalized posting list is empty, `find_jobs` returns
the no-data message (returning normally, with the agent not called), the
no-data message differs from every error message, and the agent IS called
(exactly once) whenever the normalized posting list is non-empty. -/
theorem C6_no_data (ag : Except PyErr String) (jt l : String) (ey : Int)
    (skills : List PyObj) (raw raw2 : RawResponse JobPosting)
    (jobs2 : List JobPosting) (c : String) (e : PyErr)
    (hsk : skills.all PyObj.isStr = true)
    (hraw : normalizeJobs raw = .ok [])
    (h2 : normalizeJobs raw2 = .ok jobs2) (hne : jobs2 ≠ []) :
    find_jobs (.ok raw) ag jt l ey skills = .ok ⟨noJobsMsg, 1, 0⟩ ∧
    noJobsMsg ≠ errJobsMsg e ∧
    find_jobs (.ok raw2) (.ok c) jt l ey skills = .ok ⟨c, 1, 1⟩ := by
  have hfj : ∀ ex agr, find_jobs ex agr jt l ey skills = .ok (findJobsTry ex agr) := by
    intro ex agr
    unfold find_jobs joinSkills
    rw [if_pos hsk]
  have hne2 : jobs2.isEmpty = false := by
    cases jobs2 with
    | nil => exact absurd rfl hne
    | cons a t => rfl
  refine ⟨?_, ?_, ?_⟩
  · rw [hfj]
    simp [findJobsTry, hraw]
  · unfold errJobsMsg
    exact str_ne_append noJobsMsg "An error occurred while searching for jobs: "
      e.msg 1 (by decide) (by decide) (by decide)
  · rw [hfj]
    simp [findJobsTry, h2, hne2]

/-- C6, witness: a falsy-success dict normalizes to the empty list; a
success dict with one posting triggers exactly one agent call. -/
theorem C6_no_data_witness :
    ([PyObj.str "Python"].all PyObj.isStr = true) ∧
    (normalizeJobs (.dict false none) = .ok []) ∧
    (normalizeJobs (.dict true (some (some [samplePosting]))) = .ok [samplePosting]) ∧
    ([samplePosting] ≠ ([] : List JobPosting)) ∧
    find_jobs (.ok (.dict false none)) (.ok "analysis") "Software Engineer"
      "Germany" 3 [PyObj.str "Python"] = .ok ⟨noJobsMsg, 1, 0⟩ :=
  ⟨by decide, rfl, rfl, by decide,
    (C6_no_data (.ok "analysis") "Software Engineer" "Germany" 3 [PyObj.str "Python"]
      (.dict false none) (.dict true (some (some [samplePosting]))) [samplePosting]
      "analysis" ⟨"boom"⟩ (by decide) rfl rfl (by decide)).1⟩

/-- C10, counterexample.  The claim says a malformed (non-success-dict)
response yields the SAME message as a genuine empty result; in the code
the two paths produce different texts ("No industry trends data available
for …" on line 164 versus "No industry trends available for …" on line
140), so they are distinguishable. -/
theorem C10_counterexample :
    get_industry_trends (.ok (.typedObj [sampleTrend])) (.ok "analysis")
      "Data Science" = ⟨noTrendsDataMsg "Data Science", 1, 0⟩ ∧
    get_industry_trends (.ok (.dict true (some (some [])))) (.ok "analysis")
      "Data Science" = ⟨noTrendsEmptyMsg "Data Science", 1, 0⟩ ∧
    noTrendsDataMsg "Data Science" ≠ noTrendsEmptyMsg "Data Science" :=
  ⟨rfl, rfl, by decide⟩

/-- C10, amended.  A response that is not a dict with a truthy `success`
flag indeed does not produce an error outcome — `get_industry_trends`
returns the line-164 "No industry trends data available" message with the
agent not called — but that message differs both from every error message
and from the line-140 message used for a genuine empty trends list, so the
malformed case IS distinguishable from genuine no-data by exact text. -/
theorem C10_amended (cat : String) (ag : Except PyErr String)
    (raw : RawResponse IndustryTrend) (e : PyErr)
    (hraw : raw.isTruthyDict = false) :
    get_industry_trends (.ok raw) ag cat = ⟨noTrendsDataMsg cat, 1, 0⟩ ∧
    noTrendsDataMsg cat ≠ errTrendsMsg e ∧
    noTrendsDataMsg cat ≠ noTrendsEmptyMsg cat := by
  refine ⟨?_, ?_, ?_⟩
  · cases raw with
    | dict su da =>
      cases su with
      | true => exact absurd hraw (by simp [RawResponse.isTruthyDict])
      | false => cases da with
        | none => rfl
        | some d => rfl
    | typedObj ps => rfl
    | jsonStr ps => rfl
  · unfold noTrendsDataMsg errTrendsMsg
    rw [String.append_assoc]
    exact str_append_ne _ _ _ _ 1 (by decide) (by decide) (by decide)
  · unfold noTrendsDataMsg noTrendsEmptyMsg
    rw [String.append_assoc, String.append_assoc]
    exact str_append_ne _ _ _ _ 20 (by decide) (by decide) (by decide)

/-- C10, witness: a typed-object response with one trend record. -/
theorem C10_amended_witness :
    ((RawResponse.typedObj [sampleTrend]).isTruthyDict = false) ∧
    get_industry_trends (.ok (.typedObj [sampleTrend])) (.ok "analysis")
      "Data Science" = ⟨noTrendsDataMsg "Data Science", 1, 0⟩ :=
  ⟨rfl,
    (C10_amended "Data Science" (.ok "analysis") (.typedObj [sampleTrend])
      ⟨"boom"⟩ rfl).1⟩

end JobAgent
